import Mathlib

/-!
Shallow embedding of the OV6211 sensor driver core
(src/drivers/media/i2c/ov6211.c) for checking the natural-language
specification against the code.

Modelling conventions:
* The register transport (two regmaps over i2c) is modelled by `Hw`:
  a register file `regs : Nat → Nat` (reads and writes see the low byte,
  as `val_bits = 8`), plus per-address return codes `readRet` / `writeRet`
  (0 = success, nonzero = the errno the bus reports for an access at that
  address).  A failed write leaves the register unchanged.
* Every attempted bus access is recorded in a trace of `Ev` events, in
  the order the driver issues them, whether or not the access succeeds.
* C unsigned arithmetic is modelled on `Nat` with explicit `% 2 ^ w`
  truncation where the C types force it (u8 / u16 / u32).
* `usleep_range` delays and `dev_err` logging have no register-level
  effect and are omitted.
* On a failed `regmap_read` the C driver leaves the output variable
  holding indeterminate stack contents; the model returns the register
  value in that case.  All theorems that depend on a read-back value
  assume the read succeeded, so this choice is never load-bearing.
-/

/-- Register addresses from the driver's #defines. -/
def OV6211_SC_MODE_SELECT : Nat := 0x0100
def OV6211_SC_SOFTWARE_RESET : Nat := 0x0103
def OV6211_SC_CHIP_ID_HIGH : Nat := 0x300a
def OV6211_SC_CHIP_ID_LOW : Nat := 0x300b
def OV6211_SC_REG0C : Nat := 0x300c
def OV6211_AEC_EXPO1 : Nat := 0x3500
def OV6211_AEC_EXPO2 : Nat := 0x3501
def OV6211_AEC_EXPO3 : Nat := 0x3502
def OV6211_AEC_MANUAL : Nat := 0x3503
def OV6211_TVTS_HI : Nat := 0x380e
def OV6211_TVTS_LO : Nat := 0x380f
def OV6211_STROBE_SPAN1 : Nat := 0x3b8d
def OV6211_STROBE_SPAN2 : Nat := 0x3b8e
def OV6211_STROBE_SPAN3 : Nat := 0x3b8f

/-- One step of a register script: struct reg_value.  Fields are
u16 / u8 / u8 / u32 in C; the embedding truncates at the use sites. -/
structure reg_value where
  reg_addr : Nat
  val : Nat
  mask : Nat
  delay_ms : Nat
deriving DecidableEq, Repr

/-- A bus access attempted by the driver (recorded even when the
transport reports a failure). -/
inductive Ev where
  | read (addr : Nat)
  | write (addr : Nat) (val : Nat)
deriving DecidableEq, Repr

/-- The register transport: register file plus per-address fault
injection, standing in for the two regmaps of the driver. -/
structure Hw where
  regs : Nat → Nat
  readRet : Nat → Int
  writeRet : Nat → Int

/-- ov6211_write_reg: regmap_write of the low byte; the register is
updated only when the transport reports success.  Returns the transport
return code. -/
def ov6211_write_reg (hw : Hw) (reg val : Nat) : Int × Hw × List Ev :=
  if hw.writeRet reg = 0 then
    (0, { hw with regs := fun a => if a = reg then val % 256 else hw.regs a },
     [Ev.write reg (val % 256)])
  else
    (hw.writeRet reg, hw, [Ev.write reg (val % 256)])

/-- ov6211_read_reg: regmap_read on the read regmap; `*val = r & 0xff`.
Result is (return code, byte deposited in *val, trace). -/
def ov6211_read_reg (hw : Hw) (reg : Nat) : Int × Nat × List Ev :=
  (hw.readRet reg, hw.regs reg % 256, [Ev.read reg])

/-- ov6211_mod_reg: read-modify-write.  A failed read aborts before the
write; otherwise the masked bits are cleared and `val & mask` is ORed in
(all in u8 arithmetic: `~mask` on a byte is `255 ^^^ mask`). -/
def ov6211_mod_reg (hw : Hw) (reg mask val : Nat) : Int × Hw × List Ev :=
  let r := ov6211_read_reg hw reg
  if r.1 ≠ 0 then (r.1, hw, r.2.2)
  else
    let readval := r.2.1 &&& (255 ^^^ (mask % 256))
    let v := ((val % 256) &&& (mask % 256)) ||| readval
    let w := ov6211_write_reg hw reg v
    (w.1, w.2.1, r.2.2 ++ w.2.2)

/-- One loop iteration of ov6211_load_regs: masked ops go through
ov6211_mod_reg, plain ops (mask 0) through ov6211_write_reg.  The struct
fields are u16/u8 typed, hence the truncations. -/
def ov6211_apply_op (hw : Hw) (op : reg_value) : Int × Hw × List Ev :=
  if op.mask % 256 ≠ 0 then
    ov6211_mod_reg hw (op.reg_addr % 65536) (op.mask % 256) (op.val % 256)
  else
    ov6211_write_reg hw (op.reg_addr % 65536) (op.val % 256)

/-- ov6211_load_regs: applies the script ops in order; the first op
whose access fails breaks out of the loop and its return code is
returned.  (The per-op delay has no register-level effect.) -/
def ov6211_load_regs (hw : Hw) : List reg_value → Int × Hw × List Ev
  | [] => (0, hw, [])
  | op :: rest =>
    let a := ov6211_apply_op hw op
    if a.1 ≠ 0 then (a.1, a.2.1, a.2.2)
    else
      let k := ov6211_load_regs a.2.1 rest
      (k.1, k.2.1, a.2.2 ++ k.2.2)

/-- ov6211_soft_reset: two writes to the software-reset register with a
settle delay in between; both return codes are discarded by the source. -/
def ov6211_soft_reset (hw : Hw) : Hw × List Ev :=
  let w1 := ov6211_write_reg hw OV6211_SC_SOFTWARE_RESET 0x01
  let w2 := ov6211_write_reg w1.2.1 OV6211_SC_SOFTWARE_RESET 0x00
  (w2.2.1, w1.2.2 ++ w2.2.2)

/-- The value the local `exposure` of ov6211_set_exposure holds after
the clamp: the two TVTS bytes are read (high, then low; the reads do not
change `hw`, so re-reading here is equivalent to the source's straight
line), combined big-endian, 4 is subtracted in u32 arithmetic, and the
requested u32 value is replaced by the result when the result is
smaller. -/
def ov6211_clamped_exposure (hw : Hw) (exposure : Nat) : Nat :=
  let r1 := ov6211_read_reg hw OV6211_TVTS_HI
  let ce1 := r1.2.1 <<< 8
  let r2 := ov6211_read_reg hw OV6211_TVTS_LO
  let ce2 := ce1 ||| r2.2.1
  let ce := (ce2 + (2 ^ 32 - 4)) % 2 ^ 32
  let ex := exposure % 2 ^ 32
  if ce < ex then ce else ex

/-- ov6211_set_exposure: reads the total vertical timing big-endian
(high byte, then low byte), subtracts 4 in u32 arithmetic, clamps the
requested u32 exposure (see ov6211_clamped_exposure), sets the
manual-exposure bit and writes the three exposure and three strobe-span
registers.  Every transport return code is discarded and the function
returns 0. -/
def ov6211_set_exposure (hw : Hw) (exposure : Nat) : Int × Hw × List Ev :=
  let r1 := ov6211_read_reg hw OV6211_TVTS_HI
  let r2 := ov6211_read_reg hw OV6211_TVTS_LO
  let e := ov6211_clamped_exposure hw exposure
  let m := ov6211_mod_reg hw OV6211_AEC_MANUAL 1 1
  let w1 := ov6211_write_reg m.2.1 OV6211_AEC_EXPO1 ((e >>> 12) &&& 0x0f)
  let w2 := ov6211_write_reg w1.2.1 OV6211_AEC_EXPO2 ((e >>> 4) &&& 0xff)
  let w3 := ov6211_write_reg w2.2.1 OV6211_AEC_EXPO3 ((e <<< 4) &&& 0xf0)
  let w4 := ov6211_write_reg w3.2.1 OV6211_STROBE_SPAN1 ((e >>> 16) &&& 0xff)
  let w5 := ov6211_write_reg w4.2.1 OV6211_STROBE_SPAN2 ((e >>> 8) &&& 0xff)
  let w6 := ov6211_write_reg w5.2.1 OV6211_STROBE_SPAN3 (e &&& 0xff)
  (0, w6.2.1,
   r1.2.2 ++ r2.2.2 ++ m.2.2 ++ w1.2.2 ++ w2.2.2 ++ w3.2.2 ++
   w4.2.2 ++ w5.2.2 ++ w6.2.2)

/-- The mode description: struct ov6211_mode_info (reg_data_size is the
length of reg_data in the source and is implicit here). -/
structure ov6211_mode_info where
  id : Nat
  width : Nat
  height : Nat
  reg_data : List reg_value
  pixel_clock : Nat
deriving Repr

/-- The mutable control-plane state of struct ov6211_dev that the
streaming state machine reads and writes. -/
structure Sensor where
  cur_mode : ov6211_mode_info
  cur_fr_id : Nat
  frame_interval : Nat × Nat
  exposure : Nat
  pending_mode_change : Bool
  pending_fi_change : Bool
  streaming : Bool

/-- The switch in internal_set_stream mapping a frame-rate id to the
fixed TVTS register pair; OV6211_NUM_FRAMERATES (= 5, the only other
representable enum value) takes the -EINVAL branch, modelled as none. -/
def ov6211_timing_pair : Nat → Option (Nat × Nat)
  | 0 => some (0x14, 0x88)
  | 1 => some (0x0d, 0xb0)
  | 2 => some (0x06, 0xd8)
  | 3 => some (0x04, 0x90)
  | 4 => some (0x03, 0x6c)
  | _ => none

/-- The code after the `stream:` label of internal_set_stream: write 0
to the mode-select register, then on enable apply a non-zero manual
exposure and write 1 to mode select, setting the streaming flag; on
disable just clear the streaming flag.  All return codes are discarded. -/
def internal_set_stream_tail (hw : Hw) (s : Sensor) (enable : Bool) :
    Int × Hw × Sensor × List Ev :=
  let w0 := ov6211_write_reg hw OV6211_SC_MODE_SELECT 0
  if enable then
    let ehw :=
      if s.exposure ≠ 0 then
        let r := ov6211_set_exposure w0.2.1 s.exposure
        (r.2.1, r.2.2)
      else (w0.2.1, ([] : List Ev))
    let w1 := ov6211_write_reg ehw.1 OV6211_SC_MODE_SELECT 1
    (0, w1.2.1, { s with streaming := true }, w0.2.2 ++ ehw.2 ++ w1.2.2)
  else
    (0, w0.2.1, { s with streaming := false }, w0.2.2)

/-- internal_set_stream: if a frame-interval change is pending it is
applied first — regardless of `enable` — by writing the mapped TVTS pair and
clearing the pending flag (an unmapped id returns -EINVAL at once);
control then reaches the `stream:` label. -/
def internal_set_stream (hw : Hw) (s : Sensor) (enable : Bool) :
    Int × Hw × Sensor × List Ev :=
  if s.pending_fi_change = false then internal_set_stream_tail hw s enable
  else
    match ov6211_timing_pair s.cur_fr_id with
    | none => (-22, hw, s, [])
    | some (hi, lo) =>
      let s1 := { s with pending_fi_change := false }
      let w1 := ov6211_write_reg hw OV6211_TVTS_HI hi
      let w2 := ov6211_write_reg w1.2.1 OV6211_TVTS_LO lo
      let t := internal_set_stream_tail w2.2.1 s1 enable
      (t.1, t.2.1, t.2.2.1, w1.2.2 ++ w2.2.2 ++ t.2.2.2)

/-- ov6211_set_mode: soft reset then the mode script; the return value
of ov6211_load_regs is discarded and the function returns 0. -/
def ov6211_set_mode (hw : Hw) (s : Sensor) : Int × Hw × List Ev :=
  let r := ov6211_soft_reset hw
  let l := ov6211_load_regs r.1 s.cur_mode.reg_data
  (0, l.2.1, r.2 ++ l.2.2)

/-- ov6211_s_stream: on enable runs ov6211_set_mode and keeps only its
return value; the result of internal_set_stream is discarded in both
directions. -/
def ov6211_s_stream (hw : Hw) (s : Sensor) (enable : Bool) :
    Int × Hw × Sensor × List Ev :=
  if enable then
    let m := ov6211_set_mode hw s
    let i := internal_set_stream m.2.1 s true
    (m.1, i.2.1, i.2.2.1, m.2.2 ++ i.2.2.2)
  else
    let i := internal_set_stream hw s false
    (0, i.2.1, i.2.2.1, i.2.2.2)

/-- static const int ov6211_framerates[]. -/
def ov6211_framerates : List Nat := [10, 15, 30, 45, 60]

/-- The search loop of internal_set_frame_interval: index of the first
matching rate, or the length of the array when there is no match. -/
def ov6211_find_framerate (fr : Nat) : List Nat → Nat
  | [] => 0
  | r :: rest => if r = fr then 0 else 1 + ov6211_find_framerate fr rest

/-- internal_set_frame_interval: rejects a zero numerator, computes the
integer rate denominator/numerator (u32 division), searches the rate
table, and only on a hit updates cur_fr_id and frame_interval. -/
def internal_set_frame_interval (s : Sensor) (num den : Nat) : Int × Sensor :=
  if num % 2 ^ 32 = 0 then (-22, s)
  else
    let fr_rate := (den % 2 ^ 32) / (num % 2 ^ 32)
    let i := ov6211_find_framerate fr_rate ov6211_framerates
    if i = ov6211_framerates.length then (-22, s)
    else (0, { s with cur_fr_id := i, frame_interval := (num % 2 ^ 32, den % 2 ^ 32) })

/-- ov6211_s_frame_interval: forwards to internal_set_frame_interval and
then sets pending_fi_change unconditionally, whatever the result was. -/
def ov6211_s_frame_interval (s : Sensor) (num den : Nat) : Int × Sensor :=
  let r := internal_set_frame_interval s num den
  (r.1, { r.2 with pending_fi_change := true })

/-- ov6211_set_ctrl_exposure: AUTO clears the stored manual value;
MANUAL stores the control value and immediately programs it.  Returns 0
in both cases (the ov6211_set_exposure result is discarded). -/
def ov6211_set_ctrl_exposure (hw : Hw) (s : Sensor) (auto_exposure : Bool)
    (ctrl_val : Nat) : Int × Hw × Sensor × List Ev :=
  if auto_exposure then (0, hw, { s with exposure := 0 }, [])
  else
    let s1 := { s with exposure := ctrl_val % 2 ^ 32 }
    let r := ov6211_set_exposure hw s1.exposure
    (0, r.2.1, s1, r.2.2)

/-- ov6211_check_chip_id: reads the two identity bytes (a failed read or
a value mismatch fails the check; the first branch returns the positive
constant ENXIO = 6 exactly as the source does, the second -ENXIO = -6),
then reads the revision byte purely for the log — but a transport
failure of that read is still returned. -/
def ov6211_check_chip_id (hw : Hw) : Int × List Ev :=
  if hw.readRet OV6211_SC_CHIP_ID_HIGH ≠ 0 ∨
     hw.regs OV6211_SC_CHIP_ID_HIGH % 256 ≠ 0x67 then
    (6, [Ev.read OV6211_SC_CHIP_ID_HIGH])
  else if hw.readRet OV6211_SC_CHIP_ID_LOW ≠ 0 ∨
          hw.regs OV6211_SC_CHIP_ID_LOW % 256 ≠ 0x10 then
    (-6, [Ev.read OV6211_SC_CHIP_ID_HIGH, Ev.read OV6211_SC_CHIP_ID_LOW])
  else if hw.readRet OV6211_SC_REG0C ≠ 0 then
    (hw.readRet OV6211_SC_REG0C,
     [Ev.read OV6211_SC_CHIP_ID_HIGH, Ev.read OV6211_SC_CHIP_ID_LOW,
      Ev.read OV6211_SC_REG0C])
  else
    (0, [Ev.read OV6211_SC_CHIP_ID_HIGH, Ev.read OV6211_SC_CHIP_ID_LOW,
         Ev.read OV6211_SC_REG0C])

/-- The tail of ov6211_probe from the chip-id check onward: a failed
check aborts before any register script is applied; on success the
current mode's script is loaded (its return value is discarded by the
source) and the probe continues.  Steps before and between (regulators,
control handler, framework registration) are external collaborators and
are modelled as succeeding.  The Bool records whether ov6211_load_regs
was invoked. -/
def ov6211_probe_tail (hw : Hw) (mode : ov6211_mode_info) : Int × Hw × Bool :=
  let c := ov6211_check_chip_id hw
  if c.1 ≠ 0 then (c.1, hw, false)
  else
    let l := ov6211_load_regs hw mode.reg_data
    (0, l.2.1, true)

/-- The exposure, in lines, that the device decodes from the three AEC
registers as programmed by ov6211_set_exposure: a 20-bit field in
sixteenth-of-a-line units, i.e. reg3500[3:0] : reg3501 : reg3502, with
the line count in its upper 16 bits. -/
def appliedExposureLines (hw : Hw) : Nat :=
  (hw.regs OV6211_AEC_EXPO1 % 16) * 4096 +
  (hw.regs OV6211_AEC_EXPO2 % 256) * 16 +
  (hw.regs OV6211_AEC_EXPO3 % 256) / 16

/-- The 16-bit big-endian total-vertical-timing value a successful pair
of reads at TVTS_HI / TVTS_LO deposits. -/
def tvts_readback (hw : Hw) : Nat :=
  (hw.regs OV6211_TVTS_HI % 256) * 256 + hw.regs OV6211_TVTS_LO % 256

/-- A transport on which every access succeeds, with the given register
file. -/
def hw_all_ok (regs : Nat → Nat) : Hw :=
  ⟨regs, fun _ => 0, fun _ => 0⟩

/-- A transport on which every access fails with -EIO = -5. -/
def hw_all_fail : Hw :=
  ⟨fun _ => 0, fun _ => -5, fun _ => -5⟩

/-- static const struct reg_value ov6211_init_y8_400_400[]: the full
mode script for the 400x400 mode, transcribed from the source. -/
def ov6211_init_y8_400_400 : List reg_value := [
  reg_value.mk 0x0103 0x01 0 0, reg_value.mk 0x0100 0x00 0 0,
  reg_value.mk 0x3005 0x08 0 0, reg_value.mk 0x3013 0x12 0 0,
  reg_value.mk 0x3014 0x04 0 0, reg_value.mk 0x3016 0x10 0 0,
  reg_value.mk 0x3017 0x00 0 0, reg_value.mk 0x3018 0x00 0 0,
  reg_value.mk 0x301a 0x00 0 0, reg_value.mk 0x301b 0x00 0 0,
  reg_value.mk 0x301c 0x00 0 0, reg_value.mk 0x3037 0xf0 0 0,
  reg_value.mk 0x3080 0x01 0 0, reg_value.mk 0x3081 0x00 0 0,
  reg_value.mk 0x3082 0x01 0 0, reg_value.mk 0x3098 0x04 0 0,
  reg_value.mk 0x3099 0x28 0 0, reg_value.mk 0x309a 0x06 0 0,
  reg_value.mk 0x309b 0x04 0 0, reg_value.mk 0x309c 0x00 0 0,
  reg_value.mk 0x309d 0x00 0 0, reg_value.mk 0x309e 0x01 0 0,
  reg_value.mk 0x309f 0x00 0 0, reg_value.mk 0x30b0 0x08 0 0,
  reg_value.mk 0x30b1 0x02 0 0, reg_value.mk 0x30b2 0x00 0 0,
  reg_value.mk 0x30b3 0x28 0 0, reg_value.mk 0x30b4 0x02 0 0,
  reg_value.mk 0x30b5 0x00 0 0, reg_value.mk 0x3106 0xd9 0 0,
  reg_value.mk 0x3500 0x00 0 0, reg_value.mk 0x3501 0x1b 0 0,
  reg_value.mk 0x3502 0x20 0 0, reg_value.mk 0x3503 0x07 0 0,
  reg_value.mk 0x3509 0x10 0 0, reg_value.mk 0x350b 0x10 0 0,
  reg_value.mk 0x3600 0xfc 0 0, reg_value.mk 0x3620 0xb7 0 0,
  reg_value.mk 0x3621 0x05 0 0, reg_value.mk 0x3626 0x31 0 0,
  reg_value.mk 0x3627 0x40 0 0, reg_value.mk 0x3632 0xa3 0 0,
  reg_value.mk 0x3633 0x34 0 0, reg_value.mk 0x3634 0x40 0 0,
  reg_value.mk 0x3636 0x00 0 0, reg_value.mk 0x3660 0x80 0 0,
  reg_value.mk 0x3662 0x03 0 0, reg_value.mk 0x3664 0xf0 0 0,
  reg_value.mk 0x366a 0x10 0 0, reg_value.mk 0x366b 0x06 0 0,
  reg_value.mk 0x3680 0xf4 0 0, reg_value.mk 0x3681 0x50 0 0,
  reg_value.mk 0x3682 0x00 0 0, reg_value.mk 0x3708 0x20 0 0,
  reg_value.mk 0x3709 0x40 0 0, reg_value.mk 0x370d 0x03 0 0,
  reg_value.mk 0x373b 0x02 0 0, reg_value.mk 0x373c 0x08 0 0,
  reg_value.mk 0x3742 0x00 0 0, reg_value.mk 0x3744 0x16 0 0,
  reg_value.mk 0x3745 0x08 0 0, reg_value.mk 0x3781 0xfc 0 0,
  reg_value.mk 0x3788 0x00 0 0, reg_value.mk 0x3800 0x00 0 0,
  reg_value.mk 0x3801 0x04 0 0, reg_value.mk 0x3802 0x00 0 0,
  reg_value.mk 0x3803 0x04 0 0, reg_value.mk 0x3804 0x01 0 0,
  reg_value.mk 0x3805 0x9b 0 0, reg_value.mk 0x3806 0x01 0 0,
  reg_value.mk 0x3807 0x9b 0 0, reg_value.mk 0x3808 0x01 0 0,
  reg_value.mk 0x3809 0x90 0 0, reg_value.mk 0x380a 0x01 0 0,
  reg_value.mk 0x380b 0x90 0 0, reg_value.mk 0x380c 0x05 0 0,
  reg_value.mk 0x380d 0xf2 0 0, reg_value.mk 0x380e 0x03 0 0,
  reg_value.mk 0x380f 0x6c 0 0, reg_value.mk 0x3810 0x00 0 0,
  reg_value.mk 0x3811 0x04 0 0, reg_value.mk 0x3812 0x00 0 0,
  reg_value.mk 0x3813 0x04 0 0, reg_value.mk 0x3814 0x11 0 0,
  reg_value.mk 0x3815 0x11 0 0, reg_value.mk 0x3820 0x00 0 0,
  reg_value.mk 0x3821 0x00 0 0, reg_value.mk 0x382b 0xfa 0 0,
  reg_value.mk 0x382f 0x04 0 0, reg_value.mk 0x3832 0x00 0 0,
  reg_value.mk 0x3833 0x05 0 0, reg_value.mk 0x3834 0x00 0 0,
  reg_value.mk 0x3835 0x05 0 0, reg_value.mk 0x3882 0x04 0 0,
  reg_value.mk 0x3883 0x00 0 0, reg_value.mk 0x38a4 0x10 0 0,
  reg_value.mk 0x38a5 0x00 0 0, reg_value.mk 0x38b1 0x03 0 0,
  reg_value.mk 0x3b80 0x00 0 0, reg_value.mk 0x3b81 0xff 0 0,
  reg_value.mk 0x3b82 0x10 0 0, reg_value.mk 0x3b83 0x00 0 0,
  reg_value.mk 0x3b84 0x08 0 0, reg_value.mk 0x3b85 0x00 0 0,
  reg_value.mk 0x3b86 0x01 0 0, reg_value.mk 0x3b87 0x00 0 0,
  reg_value.mk 0x3b88 0x00 0 0, reg_value.mk 0x3b89 0x00 0 0,
  reg_value.mk 0x3b8a 0x00 0 0, reg_value.mk 0x3b8b 0x05 0 0,
  reg_value.mk 0x3b8c 0x00 0 0, reg_value.mk 0x3b8d 0x00 0 0,
  reg_value.mk 0x3b8e 0x01 0 0, reg_value.mk 0x3b8f 0xb2 0 0,
  reg_value.mk 0x3b94 0x05 0 0, reg_value.mk 0x3b95 0xf2 0 0,
  reg_value.mk 0x3b96 0xc0 0 0, reg_value.mk 0x4004 0x04 0 0,
  reg_value.mk 0x404e 0x01 0 0, reg_value.mk 0x4801 0x0f 0 0,
  reg_value.mk 0x4806 0x0f 0 0, reg_value.mk 0x4837 0x43 0 0,
  reg_value.mk 0x5a08 0x00 0 0, reg_value.mk 0x5a01 0x00 0 0,
  reg_value.mk 0x5a03 0x00 0 0, reg_value.mk 0x5a04 0x10 0 0,
  reg_value.mk 0x5a05 0xa0 0 0, reg_value.mk 0x5a06 0x0c 0 0,
  reg_value.mk 0x5a07 0x78 0 0]

/-- static const struct reg_value ov6211_init_y8_400_200[]: the full
mode script for the 400x200 mode, transcribed from the source. -/
def ov6211_init_y8_400_200 : List reg_value := [
  reg_value.mk 0x0103 0x01 0 0, reg_value.mk 0x0100 0x00 0 0,
  reg_value.mk 0x3005 0x08 0 0, reg_value.mk 0x3013 0x12 0 0,
  reg_value.mk 0x3014 0x04 0 0, reg_value.mk 0x3016 0x10 0 0,
  reg_value.mk 0x3017 0x00 0 0, reg_value.mk 0x3018 0x00 0 0,
  reg_value.mk 0x301a 0x00 0 0, reg_value.mk 0x301b 0x00 0 0,
  reg_value.mk 0x301c 0x00 0 0, reg_value.mk 0x3037 0xf0 0 0,
  reg_value.mk 0x3080 0x01 0 0, reg_value.mk 0x3081 0x00 0 0,
  reg_value.mk 0x3082 0x01 0 0, reg_value.mk 0x3098 0x04 0 0,
  reg_value.mk 0x3099 0x28 0 0, reg_value.mk 0x309a 0x06 0 0,
  reg_value.mk 0x309b 0x04 0 0, reg_value.mk 0x309c 0x00 0 0,
  reg_value.mk 0x309d 0x00 0 0, reg_value.mk 0x309e 0x01 0 0,
  reg_value.mk 0x309f 0x00 0 0, reg_value.mk 0x30b0 0x08 0 0,
  reg_value.mk 0x30b1 0x02 0 0, reg_value.mk 0x30b2 0x00 0 0,
  reg_value.mk 0x30b3 0x28 0 0, reg_value.mk 0x30b4 0x02 0 0,
  reg_value.mk 0x30b5 0x00 0 0, reg_value.mk 0x3106 0xd9 0 0,
  reg_value.mk 0x3500 0x00 0 0, reg_value.mk 0x3501 0x1b 0 0,
  reg_value.mk 0x3502 0x20 0 0, reg_value.mk 0x3503 0x07 0 0,
  reg_value.mk 0x3509 0x10 0 0, reg_value.mk 0x350b 0x10 0 0,
  reg_value.mk 0x3600 0xfc 0 0, reg_value.mk 0x3620 0xb7 0 0,
  reg_value.mk 0x3621 0x05 0 0, reg_value.mk 0x3626 0x31 0 0,
  reg_value.mk 0x3627 0x40 0 0, reg_value.mk 0x3632 0xa3 0 0,
  reg_value.mk 0x3633 0x34 0 0, reg_value.mk 0x3634 0x40 0 0,
  reg_value.mk 0x3636 0x00 0 0, reg_value.mk 0x3660 0x80 0 0,
  reg_value.mk 0x3662 0x03 0 0, reg_value.mk 0x3664 0xf0 0 0,
  reg_value.mk 0x366a 0x10 0 0, reg_value.mk 0x366b 0x06 0 0,
  reg_value.mk 0x3680 0xf4 0 0, reg_value.mk 0x3681 0x50 0 0,
  reg_value.mk 0x3682 0x00 0 0, reg_value.mk 0x3708 0x20 0 0,
  reg_value.mk 0x3709 0x40 0 0, reg_value.mk 0x370d 0x03 0 0,
  reg_value.mk 0x373b 0x02 0 0, reg_value.mk 0x373c 0x08 0 0,
  reg_value.mk 0x3742 0x00 0 0, reg_value.mk 0x3744 0x16 0 0,
  reg_value.mk 0x3745 0x08 0 0, reg_value.mk 0x3781 0xfc 0 0,
  reg_value.mk 0x3788 0x00 0 0, reg_value.mk 0x3800 0x00 0 0,
  reg_value.mk 0x3801 0x04 0 0, reg_value.mk 0x3802 0x00 0 0,
  reg_value.mk 0x3803 0x04 0 0, reg_value.mk 0x3804 0x01 0 0,
  reg_value.mk 0x3805 0x9b 0 0, reg_value.mk 0x3806 0x01 0 0,
  reg_value.mk 0x3807 0x9b 0 0, reg_value.mk 0x3808 0x01 0 0,
  reg_value.mk 0x3809 0x90 0 0, reg_value.mk 0x380a 0x00 0 0,
  reg_value.mk 0x380b 0xc8 0 0, reg_value.mk 0x380c 0x05 0 0,
  reg_value.mk 0x380d 0xf2 0 0, reg_value.mk 0x380e 0x0d 0 0,
  reg_value.mk 0x380f 0xb0 0 0, reg_value.mk 0x3810 0x00 0 0,
  reg_value.mk 0x3811 0x04 0 0, reg_value.mk 0x3812 0x00 0 0,
  reg_value.mk 0x3813 0x9a 0 0, reg_value.mk 0x3814 0x11 0 0,
  reg_value.mk 0x3815 0x11 0 0, reg_value.mk 0x3820 0x00 0 0,
  reg_value.mk 0x3821 0x00 0 0, reg_value.mk 0x382b 0xfa 0 0,
  reg_value.mk 0x382f 0x04 0 0, reg_value.mk 0x3832 0x00 0 0,
  reg_value.mk 0x3833 0x05 0 0, reg_value.mk 0x3834 0x00 0 0,
  reg_value.mk 0x3835 0x05 0 0, reg_value.mk 0x3882 0x04 0 0,
  reg_value.mk 0x3883 0x00 0 0, reg_value.mk 0x38a4 0x10 0 0,
  reg_value.mk 0x38a5 0x00 0 0, reg_value.mk 0x38b1 0x03 0 0,
  reg_value.mk 0x3b80 0x00 0 0, reg_value.mk 0x3b81 0xff 0 0,
  reg_value.mk 0x3b82 0x10 0 0, reg_value.mk 0x3b83 0x00 0 0,
  reg_value.mk 0x3b84 0x08 0 0, reg_value.mk 0x3b85 0x00 0 0,
  reg_value.mk 0x3b86 0x01 0 0, reg_value.mk 0x3b87 0x00 0 0,
  reg_value.mk 0x3b88 0x00 0 0, reg_value.mk 0x3b89 0x00 0 0,
  reg_value.mk 0x3b8a 0x00 0 0, reg_value.mk 0x3b8b 0x05 0 0,
  reg_value.mk 0x3b8c 0x00 0 0, reg_value.mk 0x3b8d 0x00 0 0,
  reg_value.mk 0x3b8e 0x01 0 0, reg_value.mk 0x3b8f 0xb2 0 0,
  reg_value.mk 0x3b94 0x05 0 0, reg_value.mk 0x3b95 0xf2 0 0,
  reg_value.mk 0x3b96 0xc0 0 0, reg_value.mk 0x4004 0x04 0 0,
  reg_value.mk 0x404e 0x01 0 0, reg_value.mk 0x4801 0x0f 0 0,
  reg_value.mk 0x4806 0x0f 0 0, reg_value.mk 0x4837 0x43 0 0,
  reg_value.mk 0x5a08 0x00 0 0, reg_value.mk 0x5a01 0x00 0 0,
  reg_value.mk 0x5a03 0x00 0 0, reg_value.mk 0x5a04 0x10 0 0,
  reg_value.mk 0x5a05 0xa0 0 0, reg_value.mk 0x5a06 0x0c 0 0,
  reg_value.mk 0x5a07 0x78 0 0]

/-- static struct ov6211_mode_info ov6211_mode_data[]: the two modes
(id, width, height, script, pixel clock). -/
def ov6211_mode_data : List ov6211_mode_info :=
  [⟨0, 400, 200, ov6211_init_y8_400_200, 400 * 400 * 60 * 2⟩,
   ⟨1, 400, 400, ov6211_init_y8_400_400, 400 * 400 * 60 * 2⟩]

/-- The 400x200 mode entry (the probe-time default cur_mode). -/
def ov6211_mode_400_200 : ov6211_mode_info :=
  ⟨0, 400, 200, ov6211_init_y8_400_200, 400 * 400 * 60 * 2⟩

/-- The 400x400 mode entry. -/
def ov6211_mode_400_400 : ov6211_mode_info :=
  ⟨1, 400, 400, ov6211_init_y8_400_400, 400 * 400 * 60 * 2⟩

/-- Masking a byte with 0xff is reduction mod 256. -/
theorem nat_and_255 (x : Nat) : x &&& 255 = x % 256 :=
  Nat.and_pow_two_sub_one_eq_mod x 8

/-- Masking with 0x0f is reduction mod 16. -/
theorem nat_and_15 (x : Nat) : x &&& 15 = x % 16 :=
  Nat.and_pow_two_sub_one_eq_mod x 4

/-- Masking a multiple of 16 below 256 with 0xf0 keeps it. -/
theorem nat_mul16_and_240 : ∀ k, k < 16 → (16 * k) &&& 240 = 16 * k := by decide

/-- `(e << 4) & 0xf0` extracts the low nibble of `e`, shifted up. -/
theorem shl4_and_240 (e : Nat) : (e <<< 4) &&& 240 = 16 * (e % 16) := by
  have h1 : e <<< 4 = 16 * e := by
    rw [Nat.shiftLeft_eq]; ring
  have h240 : (255 &&& 240 : Nat) = 240 := by decide
  have h2 : (16 * e) &&& 240 = ((16 * e) &&& 255) &&& 240 := by
    rw [Nat.and_assoc, h240]
  have h3 : (16 * e) % 256 = 16 * (e % 16) := by omega
  rw [h1, h2, nat_and_255, h3, nat_mul16_and_240 (e % 16) (Nat.mod_lt e (by norm_num))]

/-- Oring a value shifted left by 8 with a byte is addition. -/
theorem shl8_or (a b : Nat) (hb : b < 256) : a <<< 8 ||| b = 256 * a + b := by
  rw [Nat.shiftLeft_eq, Nat.mul_comm]
  exact (Nat.mul_add_lt_is_or hb a).symm

/-- Decoding the three bytes ov6211_set_exposure stores recovers the
clamped value whenever it fits in 16 bits. -/
theorem expo_decode (e : Nat) (he : e < 65536) :
    ((e >>> 12) &&& 15) % 256 % 16 * 4096 +
    ((e >>> 4) &&& 255) % 256 % 256 * 16 +
    ((e <<< 4) &&& 240) % 256 % 256 / 16 = e := by
  have h1 : (e >>> 12) &&& 15 = e / 4096 := by
    rw [Nat.shiftRight_eq_div_pow, nat_and_15]
    have : e / 2 ^ 12 < 16 := by omega
    omega
  have h2 : (e >>> 4) &&& 255 = e / 16 % 256 := by
    rw [Nat.shiftRight_eq_div_pow, nat_and_255]
  have h3 : (e <<< 4) &&& 240 = 16 * (e % 16) := shl4_and_240 e
  rw [h1, h2, h3]
  omega

/-- On an all-ok transport, the exposure the device decodes from the
registers ov6211_set_exposure wrote is exactly the clamp result (as
stored: each byte is the masked expression of the clamp value). -/
theorem set_exposure_decodes (regs : Nat → Nat) (req : Nat) :
    appliedExposureLines (ov6211_set_exposure (hw_all_ok regs) req).2.1 =
      ((ov6211_clamped_exposure (hw_all_ok regs) req >>> 12) &&& 15) % 256 % 16 * 4096 +
      ((ov6211_clamped_exposure (hw_all_ok regs) req >>> 4) &&& 255) % 256 % 256 * 16 +
      ((ov6211_clamped_exposure (hw_all_ok regs) req <<< 4) &&& 240) % 256 % 256 / 16 := by
  have h1 : (ov6211_set_exposure (hw_all_ok regs) req).2.1.regs OV6211_AEC_EXPO1 =
      ((ov6211_clamped_exposure (hw_all_ok regs) req >>> 12) &&& 15) % 256 := rfl
  have h2 : (ov6211_set_exposure (hw_all_ok regs) req).2.1.regs OV6211_AEC_EXPO2 =
      ((ov6211_clamped_exposure (hw_all_ok regs) req >>> 4) &&& 255) % 256 := rfl
  have h3 : (ov6211_set_exposure (hw_all_ok regs) req).2.1.regs OV6211_AEC_EXPO3 =
      ((ov6211_clamped_exposure (hw_all_ok regs) req <<< 4) &&& 240) % 256 := rfl
  unfold appliedExposureLines
  rw [h1, h2, h3]

/-- When every read succeeds and the read-back total vertical timing is
at least 4, the clamp computes exactly min(requested, tvts - 4). -/
theorem clamped_exposure_spec (regs : Nat → Nat) (req : Nat)
    (hreq : req < 2 ^ 32) (hT : 4 ≤ tvts_readback (hw_all_ok regs)) :
    ov6211_clamped_exposure (hw_all_ok regs) req =
      min req (tvts_readback (hw_all_ok regs) - 4) := by
  have hv2 : regs OV6211_TVTS_LO % 256 < 256 := Nat.mod_lt _ (by norm_num)
  unfold tvts_readback hw_all_ok at hT
  unfold ov6211_clamped_exposure ov6211_read_reg tvts_readback hw_all_ok
  simp only at hT ⊢
  rw [shl8_or _ _ hv2, Nat.mod_eq_of_lt hreq, Nat.min_def]
  have hmod : (256 * (regs OV6211_TVTS_HI % 256) + regs OV6211_TVTS_LO % 256 +
      (2 ^ 32 - 4)) % 2 ^ 32 =
      256 * (regs OV6211_TVTS_HI % 256) + regs OV6211_TVTS_LO % 256 - 4 := by
    omega
  rw [hmod]
  split <;> split <;> omega

/-- The read-back total vertical timing is a 16-bit quantity. -/
theorem tvts_readback_lt (hw : Hw) : tvts_readback hw < 65536 := by
  unfold tvts_readback
  omega

/-- Shared helper: on an all-ok transport with tvts readback at least 4,
the exposure programmed by ov6211_set_exposure is min(requested, tvts-4). -/
theorem set_exposure_applied (regs : Nat → Nat) (req : Nat)
    (hreq : req < 2 ^ 32) (hT : 4 ≤ tvts_readback (hw_all_ok regs)) :
    appliedExposureLines (ov6211_set_exposure (hw_all_ok regs) req).2.1 =
      min req (tvts_readback (hw_all_ok regs) - 4) := by
  have hd := set_exposure_decodes regs req
  rw [clamped_exposure_spec regs req hreq hT] at hd
  have hlt : min req (tvts_readback (hw_all_ok regs) - 4) < 65536 :=
    lt_of_le_of_lt (Nat.min_le_right _ _)
      (by have := tvts_readback_lt (hw_all_ok regs); omega)
  rw [hd, expo_decode _ hlt]

/-- C5: ov6211_set_exposure reads the 16-bit big-endian total vertical
timing T (high byte first, then low byte), programs the exposure value
min(requested, T - 4) into the device registers, and returns 0 — the
truncation is not reported as an error. -/
theorem C5_exposure_clamp (regs : Nat → Nat) (req : Nat)
    (hreq : req < 2 ^ 32) (hT : 4 ≤ tvts_readback (hw_all_ok regs)) :
    (ov6211_set_exposure (hw_all_ok regs) req).1 = 0 ∧
    List.take 2 (ov6211_set_exposure (hw_all_ok regs) req).2.2 =
      [Ev.read OV6211_TVTS_HI, Ev.read OV6211_TVTS_LO] ∧
    appliedExposureLines (ov6211_set_exposure (hw_all_ok regs) req).2.1 =
      min req (tvts_readback (hw_all_ok regs) - 4) :=
  ⟨rfl, rfl, set_exposure_applied regs req hreq hT⟩

/-- Register file with the total vertical timing reading back as 0x036c
(876 lines), as in the 400x400 mode script. -/
def regs_tvts876 : Nat → Nat := fun a =>
  if a = OV6211_TVTS_HI then 0x03 else if a = OV6211_TVTS_LO then 0x6c else 0

/-- C5 witness: at T = 876, a request of 900 is clamped to 872 and a
request of 100 is applied unchanged, both with success returned. -/
theorem C5_exposure_clamp_witness :
    (ov6211_set_exposure (hw_all_ok regs_tvts876) 900).1 = 0 ∧
    appliedExposureLines (ov6211_set_exposure (hw_all_ok regs_tvts876) 900).2.1 = 872 ∧
    appliedExposureLines (ov6211_set_exposure (hw_all_ok regs_tvts876) 100).2.1 = 100 := by
  have h900 := C5_exposure_clamp regs_tvts876 900 (by norm_num) (by decide)
  have h100 := C5_exposure_clamp regs_tvts876 100 (by norm_num) (by decide)
  exact ⟨h900.1, h900.2.2.trans (by decide), h100.2.2.trans (by decide)⟩

/-- C6 (amended): whenever the read-back total vertical timing T is at
least 4, the exposure applied to the registers never exceeds T - 4. -/
theorem C6_exposure_bound (regs : Nat → Nat) (req : Nat)
    (hreq : req < 2 ^ 32) (hT : 4 ≤ tvts_readback (hw_all_ok regs)) :
    appliedExposureLines (ov6211_set_exposure (hw_all_ok regs) req).2.1 ≤
      tvts_readback (hw_all_ok regs) - 4 := by
  rw [set_exposure_applied regs req hreq hT]
  exact Nat.min_le_right _ _

/-- C6 witness: a request of 200 at T = 876 stays within 872. -/
theorem C6_exposure_bound_witness :
    appliedExposureLines (ov6211_set_exposure (hw_all_ok regs_tvts876) 200).2.1 ≤
      tvts_readback (hw_all_ok regs_tvts876) - 4 :=
  C6_exposure_bound regs_tvts876 200 (by norm_num) (by decide)

/-- C6 counterexample: if the total vertical timing reads back as 0
(smaller than 4), the u32 subtraction wraps, no clamping occurs, and a
requested 100-line exposure is applied in full, exceeding T - 4. -/
theorem C6_cex :
    tvts_readback (hw_all_ok (fun _ => 0)) = 0 ∧
    appliedExposureLines (ov6211_set_exposure (hw_all_ok (fun _ => 0)) 100).2.1 = 100 ∧
    ¬ appliedExposureLines (ov6211_set_exposure (hw_all_ok (fun _ => 0)) 100).2.1 ≤
        tvts_readback (hw_all_ok (fun _ => 0)) - 4 := by
  refine ⟨rfl, rfl, by decide⟩

/-- C7: per-op semantics of the script applier.  With a working
transport at the op's address: a zero mask performs a plain overwrite
with the value byte; a non-zero mask reads the current byte, clears the
masked bits, ORs in (value & mask) and stores the result. -/
theorem C7_mask_semantics (hw : Hw) (reg mask val d : Nat)
    (hr : hw.readRet (reg % 65536) = 0) (hwr : hw.writeRet (reg % 65536) = 0) :
    (mask % 256 ≠ 0 →
      (ov6211_apply_op hw ⟨reg, val, mask, d⟩).2.1.regs (reg % 65536) =
        ((val % 256) &&& (mask % 256)) |||
        ((hw.regs (reg % 65536) % 256) &&& (255 ^^^ (mask % 256)))) ∧
    (mask % 256 = 0 →
      (ov6211_apply_op hw ⟨reg, val, mask, d⟩).2.1.regs (reg % 65536) = val % 256) := by
  have hlt : ((val % 256) &&& (mask % 256)) |||
      ((hw.regs (reg % 65536) % 256) &&& (255 ^^^ (mask % 256))) < 256 := by
    have h1 : (val % 256) &&& (mask % 256) < 2 ^ 8 :=
      Nat.and_lt_two_pow (n := 8) _ (by omega)
    have h2 : (hw.regs (reg % 65536) % 256) &&& (255 ^^^ (mask % 256)) < 2 ^ 8 :=
      Nat.and_lt_two_pow (n := 8) _ (Nat.xor_lt_two_pow (by norm_num) (by omega))
    have h3 := Nat.or_lt_two_pow h1 h2
    omega
  constructor
  · intro hm
    have happ : ov6211_apply_op hw ⟨reg, val, mask, d⟩ =
        ov6211_mod_reg hw (reg % 65536) (mask % 256) (val % 256) := by
      unfold ov6211_apply_op
      simp [hm]
    rw [happ]
    unfold ov6211_mod_reg ov6211_read_reg ov6211_write_reg
    simp [hr, hwr]
    exact hlt
  · intro hm
    have happ : ov6211_apply_op hw ⟨reg, val, mask, d⟩ =
        ov6211_write_reg hw (reg % 65536) (val % 256) := by
      unfold ov6211_apply_op
      simp [hm]
    rw [happ]
    unfold ov6211_write_reg
    simp [hwr]

/-- Register file in which every byte reads back as 0xA3, with a fully
working transport. -/
def hw_regA3 : Hw := ⟨fun _ => 0xA3, fun _ => 0, fun _ => 0⟩

/-- C7 witness: merging value 0x05 under mask 0x0f into a register
holding 0xA3 stores 0xA5; a plain write (mask 0) stores 0x05. -/
theorem C7_mask_semantics_witness :
    (ov6211_apply_op hw_regA3 ⟨0x3820, 0x05, 0x0f, 0⟩).2.1.regs 0x3820 = 0xA5 ∧
    (ov6211_apply_op hw_regA3 ⟨0x3820, 0x05, 0, 0⟩).2.1.regs 0x3820 = 0x05 := by
  have h := C7_mask_semantics hw_regA3 0x3820 0x0f 0x05 0 rfl rfl
  have h0 := C7_mask_semantics hw_regA3 0x3820 0 0x05 0 rfl rfl
  exact ⟨(h.1 (by decide)).trans (by decide), (h0.2 rfl).trans (by decide)⟩

/-- Unfolding ov6211_load_regs over a successful head op. -/
theorem load_regs_cons_ok (hw : Hw) (op : reg_value) (l : List reg_value)
    (ha : (ov6211_apply_op hw op).1 = 0) :
    ov6211_load_regs hw (op :: l) =
      ((ov6211_load_regs (ov6211_apply_op hw op).2.1 l).1,
       (ov6211_load_regs (ov6211_apply_op hw op).2.1 l).2.1,
       (ov6211_apply_op hw op).2.2 ++
         (ov6211_load_regs (ov6211_apply_op hw op).2.1 l).2.2) := by
  conv_lhs => rw [ov6211_load_regs]
  simp [ha]

/-- Unfolding ov6211_load_regs over a failing head op: the loop breaks
at once. -/
theorem load_regs_cons_fail (hw : Hw) (op : reg_value) (l : List reg_value)
    (ha : (ov6211_apply_op hw op).1 ≠ 0) :
    ov6211_load_regs hw (op :: l) = ov6211_apply_op hw op := by
  conv_lhs => rw [ov6211_load_regs]
  simp [ha]

/-- C8: the script applier processes ops strictly in listed order: there
is a prefix that ran successfully in sequence; either it is the whole
script and 0 is returned, or the very next op's access fails, the
returned code and final hardware state are those of that failing op (no
rollback of the prefix, no further op issued), and the trace is the
prefix trace followed by the failing op's accesses only. -/
theorem C8_script_abort (hw : Hw) (script : List reg_value) :
    ∃ pre post, script = pre ++ post ∧
      (ov6211_load_regs hw pre).1 = 0 ∧
      ((post = [] ∧ ov6211_load_regs hw script = ov6211_load_regs hw pre) ∨
       (∃ op rest, post = op :: rest ∧
          (ov6211_apply_op (ov6211_load_regs hw pre).2.1 op).1 ≠ 0 ∧
          ov6211_load_regs hw script =
            ((ov6211_apply_op (ov6211_load_regs hw pre).2.1 op).1,
             (ov6211_apply_op (ov6211_load_regs hw pre).2.1 op).2.1,
             (ov6211_load_regs hw pre).2.2 ++
               (ov6211_apply_op (ov6211_load_regs hw pre).2.1 op).2.2))) := by
  induction script generalizing hw with
  | nil =>
    exact ⟨[], [], rfl, rfl, Or.inl ⟨rfl, rfl⟩⟩
  | cons op rest ih =>
    by_cases ha : (ov6211_apply_op hw op).1 = 0
    · obtain ⟨pre, post, hsplit, hok, hcase⟩ := ih (ov6211_apply_op hw op).2.1
      refine ⟨op :: pre, post, by rw [hsplit]; rfl, ?_, ?_⟩
      · rw [load_regs_cons_ok hw op pre ha, hok]
      · rcases hcase with ⟨hpost, heq⟩ | ⟨op2, rest2, hpost, hfail, heq⟩
        · refine Or.inl ⟨hpost, ?_⟩
          rw [load_regs_cons_ok hw op rest ha, load_regs_cons_ok hw op pre ha, heq]
        · refine Or.inr ⟨op2, rest2, hpost, ?_, ?_⟩
          · rw [load_regs_cons_ok hw op pre ha]
            exact hfail
          · rw [load_regs_cons_ok hw op rest ha, load_regs_cons_ok hw op pre ha, heq]
            simp [List.append_assoc]
    · refine ⟨[], op :: rest, rfl, rfl, Or.inr ⟨op, rest, rfl, ha, ?_⟩⟩
      rw [load_regs_cons_fail hw op rest ha]
      rfl

/-- The probe-time default state: mode 400x200, 45 fps, interval 1/45,
auto exposure, nothing pending, not streaming. -/
def sensor_idle_default : Sensor :=
  ⟨ov6211_mode_400_200, 3, (1, 45), 0, false, false, false⟩

/-- C1 (amended): ov6211_s_stream on enable never surfaces a transport
error — ov6211_set_mode discards the script applier's return code and
returns 0, and internal_set_stream's result is discarded — and, except
when a pending frame-rate change carries an unmapped rate id, the
streaming flag is set to true even if every access failed. -/
theorem C1_start_errors_ignored (hw : Hw) (s : Sensor) :
    (ov6211_s_stream hw s true).1 = 0 ∧
    (s.pending_fi_change = false ∨ s.cur_fr_id < 5 →
      (ov6211_s_stream hw s true).2.2.1.streaming = true) := by
  refine ⟨rfl, ?_⟩
  intro h
  show (internal_set_stream (ov6211_set_mode hw s).2.1 s true).2.2.1.streaming = true
  cases hp : s.pending_fi_change with
  | false =>
    unfold internal_set_stream
    rw [hp]
    rfl
  | true =>
    have h5 : s.cur_fr_id < 5 := by
      rcases h with h | h
      · rw [hp] at h
        exact absurd h (by simp)
      · exact h
    obtain ⟨hi, lo, hp2⟩ : ∃ hi lo, ov6211_timing_pair s.cur_fr_id = some (hi, lo) := by
      have hcase : s.cur_fr_id = 0 ∨ s.cur_fr_id = 1 ∨ s.cur_fr_id = 2 ∨
          s.cur_fr_id = 3 ∨ s.cur_fr_id = 4 := by omega
      rcases hcase with h0 | h0 | h0 | h0 | h0 <;> rw [h0] <;> exact ⟨_, _, rfl⟩
    unfold internal_set_stream
    rw [hp, hp2]
    rfl

/-- C1 counterexample: with a transport on which every access fails
(-EIO), a start from Idle still returns 0 — even though the mode script
demonstrably failed with -5 — and the streaming flag becomes true, so
the error is neither surfaced nor is the state left in Idle. -/
theorem C1_cex :
    hw_all_fail.writeRet OV6211_SC_SOFTWARE_RESET = -5 ∧
    (ov6211_load_regs hw_all_fail sensor_idle_default.cur_mode.reg_data).1 = -5 ∧
    (ov6211_s_stream hw_all_fail sensor_idle_default true).1 = 0 ∧
    (ov6211_s_stream hw_all_fail sensor_idle_default true).2.2.1.streaming = true := by
  refine ⟨rfl, by decide, rfl, rfl⟩

/-- C1 witness for the amended theorem, instantiated at the all-failing
transport and the default idle state. -/
theorem C1_start_errors_ignored_witness :
    (ov6211_s_stream hw_all_fail sensor_idle_default true).1 = 0 ∧
    (ov6211_s_stream hw_all_fail sensor_idle_default true).2.2.1.streaming = true := by
  have h := C1_start_errors_ignored hw_all_fail sensor_idle_default
  exact ⟨h.1, h.2 (Or.inl rfl)⟩

/-- A streaming state at the default 45 fps, current mode 400x400, auto
exposure, nothing pending. -/
def sensor_streaming_45 : Sensor :=
  ⟨ov6211_mode_400_400, 3, (1, 45), 0, false, false, true⟩

/-- The all-ok transport over an all-zero register file. -/
def hw0 : Hw := hw_all_ok fun _ => 0

/-- State after requesting a 1/30 interval while streaming. -/
def s_after_fi : Sensor := (ov6211_s_frame_interval sensor_streaming_45 1 30).2

/-- State after the subsequent stop. -/
def s_after_stop : Sensor := (ov6211_s_stream hw0 s_after_fi false).2.2.1

/-- Hardware after the subsequent stop. -/
def hw_after_stop : Hw := (ov6211_s_stream hw0 s_after_fi false).2.1

/-- C2 counterexample: in the set_frame_interval-while-streaming, stop,
start scenario the mapped 30 fps pair (0x06, 0xd8) is written during
stop_streaming (once), the pending flag is cleared by stop_streaming,
and the pair is not written at all during the following
start_streaming. -/
theorem C2_cex :
    s_after_fi.pending_fi_change = true ∧
    ((ov6211_s_stream hw0 s_after_fi false).2.2.2).count
      (Ev.write OV6211_TVTS_HI 0x06) = 1 ∧
    (ov6211_s_stream hw0 s_after_fi false).2.2.1.pending_fi_change = false ∧
    ((ov6211_s_stream hw_after_stop s_after_stop true).2.2.2).count
      (Ev.write OV6211_TVTS_HI 0x06) = 0 := by
  refine ⟨rfl, by decide, rfl, by decide⟩

/-- C2 (amended): internal_set_stream applies a pending frame-rate
change even when stopping: stop_streaming writes the mapped pair and
clears the flag before issuing the start bit 0, so in the scenario the
pair is written exactly once — during stop_streaming — and not during
the following start_streaming, which still enables streaming. -/
theorem C2_stop_applies_pending :
    (ov6211_s_frame_interval sensor_streaming_45 1 30).1 = 0 ∧
    s_after_fi.pending_fi_change = true ∧
    s_after_fi.cur_fr_id = 2 ∧
    (ov6211_s_stream hw0 s_after_fi false).2.2.2 =
      [Ev.write OV6211_TVTS_HI 0x06, Ev.write OV6211_TVTS_LO 0xd8,
       Ev.write OV6211_SC_MODE_SELECT 0] ∧
    (ov6211_s_stream hw0 s_after_fi false).2.2.1.pending_fi_change = false ∧
    (ov6211_s_stream hw0 s_after_fi false).2.2.1.streaming = false ∧
    ((ov6211_s_stream hw_after_stop s_after_stop true).2.2.2).count
      (Ev.write OV6211_TVTS_HI 0x06) = 0 ∧
    ((ov6211_s_stream hw_after_stop s_after_stop true).2.2.2).count
      (Ev.write OV6211_TVTS_LO 0xd8) = 0 ∧
    (ov6211_s_stream hw_after_stop s_after_stop true).2.2.1.streaming = true := by
  refine ⟨by decide, rfl, by decide, by decide, rfl, rfl, by decide, by decide, rfl⟩

/-- internal_set_frame_interval either rejects leaving the state
untouched or succeeds. -/
theorem internal_sfi_cases (s : Sensor) (num den : Nat) :
    internal_set_frame_interval s num den = (-22, s) ∨
    (internal_set_frame_interval s num den).1 = 0 := by
  unfold internal_set_frame_interval
  split
  · exact Or.inl rfl
  · dsimp only
    split
    · exact Or.inl rfl
    · exact Or.inr rfl

/-- C3 (amended): on an unsupported interval ov6211_s_frame_interval
returns the error and leaves the frame-rate setting and frame interval
(indeed the whole state) unchanged, except that pending_fi_change is set
to true unconditionally — on failures as well as on success. -/
theorem C3_reject_sets_pending (s : Sensor) (num den : Nat) :
    ((ov6211_s_frame_interval s num den).1 ≠ 0 →
      (ov6211_s_frame_interval s num den).1 = -22 ∧
      (ov6211_s_frame_interval s num den).2 =
        { s with pending_fi_change := true }) ∧
    (ov6211_s_frame_interval s num den).2.pending_fi_change = true := by
  refine ⟨?_, rfl⟩
  intro hne
  rcases internal_sfi_cases s num den with h | h
  · constructor
    · show (internal_set_frame_interval s num den).1 = -22
      rw [h]
    · show { (internal_set_frame_interval s num den).2 with
          pending_fi_change := true } = { s with pending_fi_change := true }
      rw [h]
  · exact absurd h hne

/-- C3 witness: requesting a 1/7 interval from the default state fails
with -EINVAL, keeps rate id and interval, and raises the pending flag
that was previously false. -/
theorem C3_reject_sets_pending_witness :
    sensor_idle_default.pending_fi_change = false ∧
    (ov6211_s_frame_interval sensor_idle_default 1 7).1 = -22 ∧
    (ov6211_s_frame_interval sensor_idle_default 1 7).2 =
      { sensor_idle_default with pending_fi_change := true } := by
  have h := (C3_reject_sets_pending sensor_idle_default 1 7).1 (by decide)
  exact ⟨rfl, h.1, h.2⟩

/-- C3 counterexample: that same call violates the claim as stated — the
pending-frame-rate-change flag does not retain its previous value false,
it is forced to true although the call failed. -/
theorem C3_cex :
    sensor_idle_default.pending_fi_change = false ∧
    (ov6211_s_frame_interval sensor_idle_default 1 7).1 = -22 ∧
    (ov6211_s_frame_interval sensor_idle_default 1 7).2.cur_fr_id =
      sensor_idle_default.cur_fr_id ∧
    (ov6211_s_frame_interval sensor_idle_default 1 7).2.frame_interval =
      sensor_idle_default.frame_interval ∧
    ¬ (ov6211_s_frame_interval sensor_idle_default 1 7).2.pending_fi_change =
        sensor_idle_default.pending_fi_change := by
  refine ⟨rfl, by decide, by decide, by decide, by decide⟩

/-- The search loop runs off the end when the rate is not in the table. -/
theorem find_framerate_not_mem (fr : Nat) :
    ∀ l : List Nat, ¬ fr ∈ l → ov6211_find_framerate fr l = l.length := by
  intro l
  induction l with
  | nil => intro _; rfl
  | cons x rest ih =>
    intro h
    rw [List.mem_cons, not_or] at h
    obtain ⟨h1, h2⟩ := h
    unfold ov6211_find_framerate
    rw [if_neg fun he => h1 he.symm, ih h2]
    simp [List.length_cons]
    omega

/-- C9: the five enumerated frame-rate ids map to their fixed timing
pairs (30 fps to (0x06, 0xd8)); any other requested interval — an
unenumerated ratio such as 1/7, a zero denominator, or any rate outside
the table — is rejected with -EINVAL and the state is left unchanged. -/
theorem C9_frame_rate_mapping :
    ov6211_timing_pair 0 = some (0x14, 0x88) ∧
    ov6211_timing_pair 1 = some (0x0d, 0xb0) ∧
    ov6211_timing_pair 2 = some (0x06, 0xd8) ∧
    ov6211_timing_pair 3 = some (0x04, 0x90) ∧
    ov6211_timing_pair 4 = some (0x03, 0x6c) ∧
    (∀ s : Sensor, internal_set_frame_interval s 1 7 = (-22, s)) ∧
    (∀ (s : Sensor) (num : Nat), internal_set_frame_interval s num 0 = (-22, s)) ∧
    (∀ (s : Sensor) (num den : Nat), num % 2 ^ 32 ≠ 0 →
      ¬ (den % 2 ^ 32) / (num % 2 ^ 32) ∈ ov6211_framerates →
      internal_set_frame_interval s num den = (-22, s)) := by
  have hgen : ∀ (s : Sensor) (num den : Nat), num % 2 ^ 32 ≠ 0 →
      ¬ (den % 2 ^ 32) / (num % 2 ^ 32) ∈ ov6211_framerates →
      internal_set_frame_interval s num den = (-22, s) := by
    intro s num den hnum hmem
    unfold internal_set_frame_interval
    rw [if_neg hnum]
    dsimp only
    rw [find_framerate_not_mem _ _ hmem, if_pos rfl]
  refine ⟨rfl, rfl, rfl, rfl, rfl, ?_, ?_, hgen⟩
  · intro s
    exact hgen s 1 7 (by decide) (by decide)
  · intro s num
    by_cases h : num % 2 ^ 32 = 0
    · unfold internal_set_frame_interval
      rw [if_pos h]
    · refine hgen s num 0 h ?_
      rw [Nat.zero_mod, Nat.zero_div]
      decide

/-- C9 witness: the generic rejection clause applied to the concrete
unenumerated ratio 1/7. -/
theorem C9_frame_rate_mapping_witness :
    internal_set_frame_interval sensor_idle_default 1 7 =
      (-22, sensor_idle_default) :=
  C9_frame_rate_mapping.2.2.2.2.2.2.2 sensor_idle_default 1 7 (by decide) (by decide)

/-- C4 (amended): transport failures while programming exposure are not
propagated: ov6211_set_exposure discards every register read/write
return code and returns 0, and the manual-exposure control setter
likewise always returns 0. -/
theorem C4_exposure_errors_ignored (hw : Hw) (s : Sensor) (e ctrl_val : Nat)
    (b : Bool) :
    (ov6211_set_exposure hw e).1 = 0 ∧
    (ov6211_set_ctrl_exposure hw s b ctrl_val).1 = 0 := by
  refine ⟨rfl, ?_⟩
  cases b <;> rfl

/-- C4 counterexample: on a transport where every access fails with -5,
programming a manual exposure of 500 still reports success (0) from both
ov6211_set_exposure and ov6211_set_ctrl_exposure, instead of returning
the first transport error. -/
theorem C4_cex :
    hw_all_fail.readRet OV6211_TVTS_HI = -5 ∧
    hw_all_fail.writeRet OV6211_AEC_EXPO1 = -5 ∧
    (ov6211_set_exposure hw_all_fail 500).1 = 0 ∧
    (ov6211_set_ctrl_exposure hw_all_fail sensor_idle_default false 500).1 = 0 :=
  ⟨rfl, rfl, rfl, rfl⟩

/-- C10: with the diagnostic revision read succeeding, the identity
check succeeds exactly when the two identity reads succeed with values
0x67 and 0x10; any failure yields the driver's device-not-present code
(the source's 6 or -6), and a failed check means the probe never applies
a register script. -/
theorem C10_identity_gate (hw : Hw) (m : ov6211_mode_info)
    (hrev : hw.readRet OV6211_SC_REG0C = 0) :
    ((ov6211_check_chip_id hw).1 = 0 ↔
      (hw.readRet OV6211_SC_CHIP_ID_HIGH = 0 ∧
       hw.regs OV6211_SC_CHIP_ID_HIGH % 256 = 0x67 ∧
       hw.readRet OV6211_SC_CHIP_ID_LOW = 0 ∧
       hw.regs OV6211_SC_CHIP_ID_LOW % 256 = 0x10)) ∧
    ((ov6211_check_chip_id hw).1 ≠ 0 →
      (ov6211_check_chip_id hw).1 = 6 ∨ (ov6211_check_chip_id hw).1 = -6) ∧
    ((ov6211_check_chip_id hw).1 ≠ 0 →
      (ov6211_probe_tail hw m).2.2 = false ∧ (ov6211_probe_tail hw m).1 ≠ 0) := by
  unfold ov6211_probe_tail
  by_cases hA : hw.readRet OV6211_SC_CHIP_ID_HIGH ≠ 0 ∨
      hw.regs OV6211_SC_CHIP_ID_HIGH % 256 ≠ 0x67
  · have hc : (ov6211_check_chip_id hw).1 = 6 := by
      unfold ov6211_check_chip_id
      rw [if_pos hA]
    rw [hc]
    refine ⟨?_, fun _ => Or.inl rfl, fun _ => ?_⟩
    · constructor
      · intro h6
        exact absurd h6 (by norm_num)
      · rintro ⟨h1, h2, _, _⟩
        rcases hA with h | h
        · exact absurd h1 h
        · exact absurd h2 h
    · dsimp only
      rw [hc]
      norm_num
  · push_neg at hA
    obtain ⟨hA1, hA2⟩ := hA
    by_cases hB : hw.readRet OV6211_SC_CHIP_ID_LOW ≠ 0 ∨
        hw.regs OV6211_SC_CHIP_ID_LOW % 256 ≠ 0x10
    · have hc : (ov6211_check_chip_id hw).1 = -6 := by
        unfold ov6211_check_chip_id
        rw [if_neg (by push_neg; exact ⟨hA1, hA2⟩), if_pos hB]
      rw [hc]
      refine ⟨?_, fun _ => Or.inr rfl, fun _ => ?_⟩
      · constructor
        · intro h6
          exact absurd h6 (by norm_num)
        · rintro ⟨_, _, h3, h4⟩
          rcases hB with h | h
          · exact absurd h3 h
          · exact absurd h4 h
      · dsimp only
        rw [hc]
        norm_num
    · push_neg at hB
      obtain ⟨hB1, hB2⟩ := hB
      have hc : (ov6211_check_chip_id hw).1 = 0 := by
        unfold ov6211_check_chip_id
        rw [if_neg (by push_neg; exact ⟨hA1, hA2⟩),
            if_neg (by push_neg; exact ⟨hB1, hB2⟩), if_neg (by push_neg; exact hrev)]
      rw [hc]
      exact ⟨⟨fun _ => ⟨hA1, hA2, hB1, hB2⟩, fun _ => rfl⟩,
             fun h => absurd rfl h, fun h => absurd rfl h⟩

/-- Register file reading back the correct chip identity 0x67 / 0x10. -/
def regs_goodchip : Nat → Nat := fun a =>
  if a = OV6211_SC_CHIP_ID_HIGH then 0x67
  else if a = OV6211_SC_CHIP_ID_LOW then 0x10 else 0xA5

/-- C10 witness: on a device presenting the expected identity the check
passes; flipping the low identity byte makes it fail and the probe then
never applies a script. -/
theorem C10_identity_gate_witness :
    (ov6211_check_chip_id (hw_all_ok regs_goodchip)).1 = 0 ∧
    (ov6211_probe_tail (hw_all_ok (fun _ => 0x67)) ov6211_mode_400_200).2.2 =
      false := by
  constructor
  · exact (C10_identity_gate (hw_all_ok regs_goodchip) ov6211_mode_400_200
      rfl).1.mpr (by decide)
  · exact ((C10_identity_gate (hw_all_ok (fun _ => 0x67)) ov6211_mode_400_200
      rfl).2.2 (by decide)).1
